import Mathlib

/-!
Shallow embedding of the `envoice` Python client library
(`envoice/types.py`, `envoice/errors.py`, `envoice/invoice.py`,
`envoice/client.py`) together with theorems settling the spec claims
about required-field validation, response classification, the
sync/async equivalence and the base64 PDF round-trip.

JSON-body parsing by pydantic (`Model.model_validate`) is modelled at
its boundary: an HTTP response carries the *outcome* of parsing its body
as a `GenerateResponse` and as an `ErrorResponse` (`none` = the parse
raised).  Everything downstream of that boundary is translated directly
from the Python source.
-/

namespace Envoice

/-- Severity of a validation error (`types.py`, `ValidationError.severity`,
a literal of "error" | "warning" with default "error"). -/
inductive Severity where
  | error
  | warning
deriving DecidableEq, Repr

/-- Validation error detail (`types.py`, class `ValidationError`). -/
structure ValidationError where
  path : String
  code : String
  message : String
  severity : Severity := Severity.error
deriving DecidableEq, Repr

/-- Validation result from the API (`types.py`, class `ValidationResult`). -/
structure ValidationResult where
  status : String
  profile : String
  version : String
  warnings : Option (List String) := none
deriving DecidableEq, Repr

/-- Account information from the API (`types.py`, class `AccountInfo`). -/
structure AccountInfo where
  remaining : Int
  plan : String
  overage_count : Option Int := none
  overage_allowed : Option Int := none
  warning : Option String := none
deriving DecidableEq, Repr

/-- Party (seller or buyer) information (`types.py`, class `Party`). -/
structure Party where
  name : String
  street : Option String := none
  city : Option String := none
  postal_code : Option String := none
  country : Option String := none
  vat_id : Option String := none
  email : Option String := none
  phone : Option String := none
deriving DecidableEq, Repr, Inhabited

/-- Line item in an invoice (`types.py`, class `LineItem`); the Python
`float` fields are modelled as rationals. -/
structure LineItem where
  description : String
  quantity : Rat
  unit : String := "C62"
  unit_price : Rat
  vat_rate : Rat := 19
deriving DecidableEq, Repr

/-- Payment information (`types.py`, class `PaymentInfo`). -/
structure PaymentInfo where
  iban : Option String := none
  bic : Option String := none
  terms : Option String := none
  reference : Option String := none
deriving DecidableEq, Repr

/-- Customization options (`types.py`, class `Customization`). -/
structure Customization where
  logo_base64 : Option String := none
  logo_width_mm : Option Int := none
  footer_text : Option String := none
  accent_color : Option String := none
deriving DecidableEq, Repr

/-- Template selector (`types.py`, the literal
"minimal" | "classic" | "compact"). -/
inductive Template where
  | minimal
  | classic
  | compact
deriving DecidableEq, Repr

/-- Complete invoice data structure (`types.py`, class `InvoiceData`). -/
structure InvoiceData where
  number : String
  date : String
  due_date : Option String := none
  seller : Party
  buyer : Party
  items : List LineItem
  payment : Option PaymentInfo := none
  currency : String := "EUR"
deriving DecidableEq, Repr

/-- Request payload for the generate endpoint (`types.py`,
class `GenerateRequest`). -/
structure GenerateRequest where
  template : Template := Template.minimal
  locale : String := "en"
  invoice : InvoiceData
  customization : Option Customization := none
deriving DecidableEq, Repr

/-- Successful API response body (`types.py`, class `GenerateResponse`). -/
structure GenerateResponse where
  pdf_base64 : String
  filename : String
  validation : ValidationResult
  account : Option AccountInfo := none
deriving DecidableEq, Repr

/-- Error response body (`types.py`, class `ErrorResponse`). -/
structure ErrorResponse where
  error : String
  message : Option String := none
  details : Option (List ValidationError) := none
deriving DecidableEq, Repr

/-- Truthiness of a Python `Optional[str]`: `None` and `""` are falsy. -/
def pyTruthy : Option String → Bool
  | none => false
  | some s => !(s == "")

/-- Python `a or b` for `a : Optional[str]` and a string default `b`:
yields `a` when it is truthy, otherwise `b`. -/
def strOr (a : Option String) (b : String) : String :=
  match a with
  | some s => if s == "" then b else s
  | none => b

/-- Truthiness of the Python `Optional[list]` field `details`: truthy
exactly when present and non-empty. -/
def detailsTruthy : Option (List ValidationError) → Bool
  | some (_ :: _) => true
  | _ => false

/-- Error taxonomy (`errors.py`).  `quotaExceeded` models
`EnvoiceQuotaExceededError`, a subclass of `EnvoiceApiError` whose
constructor fixes `status_code = 402` and `code = "quota_exceeded"`;
`networkError` models `EnvoiceNetworkError` with the wrapped cause
represented by the message of the underlying transport exception. -/
inductive EnvoiceError where
  | apiError (message : String) (status_code : Nat) (code : Option String)
  | quotaExceeded (message : String)
  | networkError (message : String) (cause : Option String)
deriving DecidableEq, Repr

/-- Membership in the `EnvoiceApiError` class: true for the generic API
error and for its subclass `EnvoiceQuotaExceededError`. -/
def EnvoiceError.isApiError : EnvoiceError → Bool
  | .apiError _ _ _ => true
  | .quotaExceeded _ => true
  | .networkError _ _ => false

/-- The `status_code` attribute visible on an `EnvoiceApiError` instance
(`EnvoiceQuotaExceededError.__init__` passes 402 to `super()`). -/
def EnvoiceError.statusCode : EnvoiceError → Option Nat
  | .apiError _ s _ => some s
  | .quotaExceeded _ => some 402
  | .networkError _ _ => none

/-- The `code` attribute visible on an `EnvoiceApiError` instance
(`EnvoiceQuotaExceededError.__init__` passes "quota_exceeded"). -/
def EnvoiceError.errCode : EnvoiceError → Option String
  | .apiError _ _ c => c
  | .quotaExceeded _ => some "quota_exceeded"
  | .networkError _ _ => none

/-- Exceptions that can escape a client operation: an SDK error from
`errors.py`, or an uncaught pydantic/JSON parse error (the `except`
clauses in `client.py` catch only the httpx transport exceptions, so a
`model_validate` failure outside the guarded spot propagates raw). -/
inductive PyExn where
  | envoice (e : EnvoiceError)
  | pydantic
deriving DecidableEq, Repr

/-- Failure arm of the result model (`invoice.py`, class
`InvoiceFailure`). -/
structure InvoiceFailure where
  errors : List ValidationError
deriving DecidableEq, Repr

/-- HTTP response as seen by the classification code: the status code,
the outcomes of parsing the body via `GenerateResponse.model_validate`
and `ErrorResponse.model_validate` (`none` = that parse raises), and the
raw decoded JSON body that `validate` passes through, abstracted to a
string. -/
structure HttpResponse where
  status_code : Nat
  bodyAsGenerate : Option GenerateResponse := none
  bodyAsError : Option ErrorResponse := none
  rawBody : String := ""
deriving DecidableEq, Repr

/-- httpx `response.is_success`: status in [200, 300). -/
def HttpResponse.is_success (r : HttpResponse) : Bool :=
  200 ≤ r.status_code && r.status_code < 300

/-- Outcome of issuing the HTTP request: a response, a timeout
(httpx `TimeoutException`), or a lower-level connection error
(httpx `RequestError`, carrying its message). -/
inductive NetOutcome where
  | response (r : HttpResponse)
  | timeout
  | connectionError (msg : String)
deriving DecidableEq, Repr

/-- The standard base64 alphabet, in index order. -/
def b64alphabet : List Char :=
  [ 'A', 'B', 'C', 'D', 'E', 'F', 'G', 'H', 'I', 'J', 'K', 'L', 'M',
    'N', 'O', 'P', 'Q', 'R', 'S', 'T', 'U', 'V', 'W', 'X', 'Y', 'Z',
    'a', 'b', 'c', 'd', 'e', 'f', 'g', 'h', 'i', 'j', 'k', 'l', 'm',
    'n', 'o', 'p', 'q', 'r', 's', 't', 'u', 'v', 'w', 'x', 'y', 'z',
    '0', '1', '2', '3', '4', '5', '6', '7', '8', '9', '+', '/' ]

/-- Encoding of a 6-bit group as a base64 character. -/
def encC (n : Nat) : Char := b64alphabet.getD n 'A'

/-- Decoding of a base64 character back to its 6-bit value. -/
def decC (c : Char) : Nat := (b64alphabet.indexOf c)

/-- Base64 encoding of a byte list (bytes as naturals below 256),
3 bytes to 4 characters with '=' padding: the algorithm of Python's
`base64.b64encode`. -/
def b64encode : List Nat → List Char
  | [] => []
  | [a] => [encC (a / 4), encC (a % 4 * 16), '=', '=']
  | [a, b] => [encC (a / 4), encC (a % 4 * 16 + b / 16), encC (b % 16 * 4), '=']
  | a :: b :: c :: rest =>
      encC (a / 4) :: encC (a % 4 * 16 + b / 16) ::
      encC (b % 16 * 4 + c / 64) :: encC (c % 64) :: b64encode rest

/-- Base64 decoding after padding removal: 4 characters to 3 bytes, with
a final group of 2 or 3 characters yielding 1 or 2 bytes. -/
def b64decodeRaw : List Char → List Nat
  | c1 :: c2 :: c3 :: c4 :: rest =>
      (decC c1 * 4 + decC c2 / 16) :: (decC c2 % 16 * 16 + decC c3 / 4) ::
      (decC c3 % 4 * 64 + decC c4) :: b64decodeRaw rest
  | [c1, c2, c3] => [decC c1 * 4 + decC c2 / 16, decC c2 % 16 * 16 + decC c3 / 4]
  | [c1, c2] => [decC c1 * 4 + decC c2 / 16]
  | _ => []

/-- Base64 decoding of a character list: the algorithm of Python's
`base64.b64decode` (padding stripped, then 6-bit groups recombined). -/
def b64decode (cs : List Char) : List Nat :=
  b64decodeRaw (cs.filter (fun c => c ≠ '='))

/-- Result object for successful generation (`invoice.py`, class
`InvoiceSuccess`); the PDF bytes are naturals below 256. -/
structure InvoiceSuccess where
  pdf_base64 : String
  filename : String
  validation : ValidationResult
  account : Option AccountInfo := none
deriving DecidableEq, Repr

/-- `InvoiceSuccess.to_bytes`: `base64.b64decode(self.pdf_base64)`. -/
def InvoiceSuccess.to_bytes (s : InvoiceSuccess) : List Nat :=
  b64decode s.pdf_base64.data

/-- `InvoiceSuccess.to_data_url`:
`f"data:application/pdf;base64,{self.pdf_base64}"`. -/
def InvoiceSuccess.to_data_url (s : InvoiceSuccess) : String :=
  "data:application/pdf;base64," ++ s.pdf_base64

/-- Tagged union of the two result arms (`invoice.py`,
`InvoiceResult = Union[InvoiceSuccess, InvoiceFailure]`). -/
inductive InvoiceResult where
  | success (s : InvoiceSuccess)
  | failure (f : InvoiceFailure)
deriving DecidableEq, Repr

/-- The error body synthesized in `_handle_response` when
`ErrorResponse.model_validate(response.json())` raises:
`ErrorResponse(error="unknown_error", message=f"HTTP {status}")`. -/
def fallbackError (status : Nat) : ErrorResponse :=
  { error := "unknown_error", message := some ("HTTP " ++ toString status) }

/-- Translation of `EnvoiceClient._handle_response` (`client.py`):
status 200 builds an `InvoiceSuccess` from the parsed body (an uncaught
pydantic error if that parse fails); otherwise the body is parsed as an
`ErrorResponse` with the parse failure absorbed into `fallbackError`,
then 402 raises `EnvoiceQuotaExceededError`, 422 with truthy `details`
returns an `InvoiceFailure`, and everything else raises
`EnvoiceApiError`. -/
def handle_response (r : HttpResponse) : Except PyExn InvoiceResult :=
  if r.status_code = 200 then
    match r.bodyAsGenerate with
    | some d => .ok (.success
        { pdf_base64 := d.pdf_base64
          filename := d.filename
          validation := d.validation
          account := d.account })
    | none => .error .pydantic
  else
    let error_data := r.bodyAsError.getD (fallbackError r.status_code)
    if r.status_code = 402 then
      .error (.envoice (.quotaExceeded (strOr error_data.message "Quota exceeded")))
    else if r.status_code = 422 ∧ detailsTruthy error_data.details then
      .ok (.failure { errors := error_data.details.getD [] })
    else
      .error (.envoice (.apiError
        (strOr error_data.message (strOr (some error_data.error) "Unknown error"))
        r.status_code (some error_data.error)))

/-- Translation of `EnvoiceClient._generate_sync` (`client.py`): a
pre-built `InvoiceFailure` is returned immediately; otherwise the
request is posted and the response classified, with httpx timeouts and
request errors mapped to `EnvoiceNetworkError`.  The second component
records whether a network call was issued. -/
def generate_sync (request : Sum GenerateRequest InvoiceFailure)
    (net : NetOutcome) : Except PyExn InvoiceResult × Bool :=
  match request with
  | .inr f => (.ok (.failure f), false)
  | .inl _ =>
    match net with
    | .response r => (handle_response r, true)
    | .timeout => (.error (.envoice (.networkError "Request timeout" none)), true)
    | .connectionError m => (.error (.envoice (.networkError m (some m))), true)

/-- Translation of `EnvoiceClient._generate_async` (`client.py`), the
awaited twin of `_generate_sync` with the identical branch structure. -/
def generate_async (request : Sum GenerateRequest InvoiceFailure)
    (net : NetOutcome) : Except PyExn InvoiceResult × Bool :=
  match request with
  | .inr f => (.ok (.failure f), false)
  | .inl _ =>
    match net with
    | .response r => (handle_response r, true)
    | .timeout => (.error (.envoice (.networkError "Request timeout" none)), true)
    | .connectionError m => (.error (.envoice (.networkError m (some m))), true)

/-- Translation of `EnvoiceClient.validate` (`client.py`): on a
non-success status the body is parsed as an `ErrorResponse` with NO
guard around the parse, so a parse failure propagates as a raw pydantic
exception; on success the decoded JSON body is returned verbatim. -/
def validate (net : NetOutcome) : Except PyExn String :=
  match net with
  | .timeout => .error (.envoice (.networkError "Request timeout" none))
  | .connectionError m => .error (.envoice (.networkError m (some m)))
  | .response r =>
    if !r.is_success then
      match r.bodyAsError with
      | some e => .error (.envoice (.apiError (strOr e.message e.error)
          r.status_code (some e.error)))
      | none => .error .pydantic
    else
      .ok r.rawBody

/-- Accumulator state of the fluent builder (`invoice.py`, class
`InvoiceBuilder`; the `_client` back-reference carries no data relevant
here and is dropped). -/
structure InvoiceBuilder where
  _number : Option String := none
  _date : Option String := none
  _due_date : Option String := none
  _seller : Option Party := none
  _buyer : Option Party := none
  _items : List LineItem := []
  _payment : Option PaymentInfo := none
  _currency : String := "EUR"
  _template : Template := Template.minimal
  _locale : String := "en"
  _customization : Customization := {}
deriving DecidableEq, Repr

/-- Translation of `InvoiceBuilder._build_request` (`invoice.py`):
required-field checks in source order (Python truthiness: `None` and
`""` count as missing for the string fields, an empty list for items),
collecting one REQUIRED `ValidationError` per missing field; if any were
collected the failure is returned, otherwise the `GenerateRequest` is
assembled, with `customization` included only when one of `logo_base64`,
`footer_text`, `accent_color` is truthy. -/
def InvoiceBuilder._build_request (b : InvoiceBuilder) :
    Sum GenerateRequest InvoiceFailure :=
  let errors : List ValidationError :=
    (if pyTruthy b._number then [] else
      [{ path := "$.invoice.number", code := "REQUIRED",
         message := "Invoice number is required" }]) ++
    (if pyTruthy b._date then [] else
      [{ path := "$.invoice.date", code := "REQUIRED",
         message := "Invoice date is required" }]) ++
    (if b._seller.isSome then [] else
      [{ path := "$.invoice.seller", code := "REQUIRED",
         message := "Seller information is required" }]) ++
    (if b._buyer.isSome then [] else
      [{ path := "$.invoice.buyer", code := "REQUIRED",
         message := "Buyer information is required" }]) ++
    (if !b._items.isEmpty then [] else
      [{ path := "$.invoice.items", code := "REQUIRED",
         message := "At least one line item is required" }])
  if errors ≠ [] then
    .inr { errors := errors }
  else
    let customization :=
      if pyTruthy b._customization.logo_base64 ||
         pyTruthy b._customization.footer_text ||
         pyTruthy b._customization.accent_color then
        some b._customization
      else
        none
    .inl
      { template := b._template
        locale := b._locale
        invoice :=
          { number := b._number.getD ""
            date := b._date.getD ""
            due_date := b._due_date
            seller := b._seller.getD default
            buyer := b._buyer.getD default
            items := b._items
            payment := b._payment
            currency := b._currency }
        customization := customization }

/-- Translation of `InvoiceBuilder.generate` (`invoice.py`):
`self._client._generate_sync(self._build_request())`. -/
def InvoiceBuilder.generate (b : InvoiceBuilder) (net : NetOutcome) :
    Except PyExn InvoiceResult × Bool :=
  generate_sync b._build_request net

/-- The five required fields in the order `_build_request` checks them. -/
def requiredFields : List String := ["number", "date", "seller", "buyer", "items"]

/-- Whether `_build_request` treats the named field as missing (Python
truthiness on the builder state). -/
def InvoiceBuilder.fieldMissing (b : InvoiceBuilder) : String → Bool
  | "number" => !(pyTruthy b._number)
  | "date" => !(pyTruthy b._date)
  | "seller" => b._seller.isNone
  | "buyer" => b._buyer.isNone
  | "items" => b._items.isEmpty
  | _ => false

/-- The human message attached to the REQUIRED error of each field. -/
def requiredMessage : String → String
  | "number" => "Invoice number is required"
  | "date" => "Invoice date is required"
  | "seller" => "Seller information is required"
  | "buyer" => "Buyer information is required"
  | _ => "At least one line item is required"

/-- The REQUIRED `ValidationError` for a missing field: code "REQUIRED",
path rooted at "$.invoice.", default severity. -/
def requiredError (f : String) : ValidationError :=
  { path := "$.invoice." ++ f, code := "REQUIRED", message := requiredMessage f }

/-- Whether one of the three customization fields of the omit-if-empty
rule (logo_base64, footer_text, accent_color) is set to a non-empty
value; the spec's omit-if-empty rule includes the customization object
exactly in this case. -/
def Customization.hasVisibleContent (c : Customization) : Bool :=
  pyTruthy c.logo_base64 || pyTruthy c.footer_text || pyTruthy c.accent_color

theorem dec_enc : ∀ n < 64, decC (encC n) = n := by decide

theorem enc_ne_pad : ∀ n < 64, encC n ≠ '=' := by decide

theorem filter_pad_cons (c : Char) (hc : c ≠ '=') (l : List Char) :
    (c :: l).filter (fun x => x ≠ '=') = c :: l.filter (fun x => x ≠ '=') := by
  simp [List.filter_cons, hc]

theorem filter_pad_drop (l : List Char) :
    ('=' :: l).filter (fun x => x ≠ '=') = l.filter (fun x => x ≠ '=') := by
  simp [List.filter_cons]

theorem b64decodeRaw_encode : ∀ (bs : List Nat), (∀ x ∈ bs, x < 256) →
    b64decodeRaw ((b64encode bs).filter (fun x => x ≠ '=')) = bs
  | [], _ => by simp [b64encode, b64decodeRaw]
  | [a], h => by
    have ha : a < 256 := h a (by simp)
    rw [b64encode]
    rw [filter_pad_cons _ (enc_ne_pad _ (by omega)),
        filter_pad_cons _ (enc_ne_pad _ (by omega)),
        filter_pad_drop, filter_pad_drop]
    simp only [List.filter_nil, b64decodeRaw]
    rw [dec_enc _ (by omega), dec_enc _ (by omega)]
    simp only [List.cons.injEq, and_true]
    omega
  | [a, b], h => by
    have ha : a < 256 := h a (by simp)
    have hb : b < 256 := h b (by simp)
    rw [b64encode]
    rw [filter_pad_cons _ (enc_ne_pad _ (by omega)),
        filter_pad_cons _ (enc_ne_pad _ (by omega)),
        filter_pad_cons _ (enc_ne_pad _ (by omega)),
        filter_pad_drop]
    simp only [List.filter_nil, b64decodeRaw]
    rw [dec_enc _ (by omega), dec_enc _ (by omega), dec_enc _ (by omega)]
    simp only [List.cons.injEq, and_true]
    omega
  | a :: b :: c :: rest, h => by
    have ha : a < 256 := h a (by simp)
    have hb : b < 256 := h b (by simp)
    have hc : c < 256 := h c (by simp)
    have ih := b64decodeRaw_encode rest
      (fun x hx => h x (by simp at hx ⊢; tauto))
    rw [b64encode]
    rw [filter_pad_cons _ (enc_ne_pad _ (by omega)),
        filter_pad_cons _ (enc_ne_pad _ (by omega)),
        filter_pad_cons _ (enc_ne_pad _ (by omega)),
        filter_pad_cons _ (enc_ne_pad _ (by omega))]
    rw [b64decodeRaw, ih]
    rw [dec_enc _ (by omega), dec_enc _ (by omega),
        dec_enc _ (by omega), dec_enc _ (by omega)]
    simp only [List.cons.injEq, and_true]
    omega

/-- Base64 round-trip: decoding the encoding of any byte list recovers
the bytes exactly. -/
theorem b64_roundtrip (bs : List Nat) (h : ∀ x ∈ bs, x < 256) :
    b64decode (b64encode bs) = bs :=
  b64decodeRaw_encode bs h

instance {ε α : Type} [DecidableEq ε] [DecidableEq α] : DecidableEq (Except ε α) := fun x y =>
  match x, y with
  | .error a, .error b =>
    if h : a = b then isTrue (congrArg Except.error h)
    else isFalse (fun hh => h (Except.error.inj hh))
  | .ok a, .ok b =>
    if h : a = b then isTrue (congrArg Except.ok h)
    else isFalse (fun hh => h (Except.ok.inj hh))
  | .error _, .ok _ => isFalse (fun hh => Except.noConfusion hh)
  | .ok _, .error _ => isFalse (fun hh => Except.noConfusion hh)

/-- C6: for every request value (valid `GenerateRequest` or pre-built
`InvoiceFailure`) and every network outcome fixture, the synchronous and
the asynchronous generate paths produce structurally identical results,
including identical thrown errors on error-classified responses. -/
theorem c6_sync_async_agree (request : Sum GenerateRequest InvoiceFailure)
    (net : NetOutcome) :
    generate_sync request net = generate_async request net := rfl

/-- C8: for every byte sequence `bs`, an `InvoiceSuccess` whose
`pdf_base64` is the base64 encoding of `bs` has `to_bytes` recovering
exactly `bs`, and its `to_data_url` is the string
"data:application/pdf;base64," followed by `pdf_base64`. -/
theorem c8_pdf_roundtrip (bs : List Nat) (h : ∀ x ∈ bs, x < 256)
    (s : InvoiceSuccess) (hs : s.pdf_base64 = String.mk (b64encode bs)) :
    s.to_bytes = bs ∧
    s.to_data_url = "data:application/pdf;base64," ++ s.pdf_base64 := by
  constructor
  · rw [InvoiceSuccess.to_bytes, hs]
    exact b64_roundtrip bs h
  · rfl

/-- Witness for C8 at the concrete bytes [1, 2, 3], whose base64
encoding is "AQID". -/
theorem c8_pdf_roundtrip_witness :
    ({ pdf_base64 := "AQID", filename := "invoice.pdf",
       validation := { status := "valid", profile := "EN16931", version := "2.3.2" } }
      : InvoiceSuccess).to_bytes = [1, 2, 3] ∧
    ({ pdf_base64 := "AQID", filename := "invoice.pdf",
       validation := { status := "valid", profile := "EN16931", version := "2.3.2" } }
      : InvoiceSuccess).to_data_url = "data:application/pdf;base64," ++ "AQID" :=
  c8_pdf_roundtrip [1, 2, 3] (by decide) _ (by decide)

/-- C1: a 422 response whose error body parses with a non-empty
`details` list makes `handle_response` return (not throw) an
`InvoiceFailure` whose errors are exactly those details entries, in
order and with all fields preserved; and among non-2xx statuses this is
the only status/body combination on which classification returns a
value instead of throwing. -/
theorem c1_422_details_returned (r : HttpResponse) :
    (∀ e ds, r.status_code = 422 → r.bodyAsError = some e →
      e.details = some ds → ds ≠ [] →
      handle_response r = .ok (.failure { errors := ds })) ∧
    (∀ res, ¬ (200 ≤ r.status_code ∧ r.status_code < 300) →
      handle_response r = .ok res →
      r.status_code = 422 ∧ ∃ e ds, r.bodyAsError = some e ∧
        e.details = some ds ∧ ds ≠ [] ∧ res = .failure { errors := ds }) := by
  constructor
  · intro e ds h422 hbody hdet hne
    rcases ds with _ | ⟨d, ds⟩
    · exact absurd rfl hne
    · simp [handle_response, h422, hbody, hdet, detailsTruthy]
  · intro res h2xx hok
    have h200 : r.status_code ≠ 200 := fun h => h2xx ⟨by omega, by omega⟩
    simp only [handle_response, h200, if_false, ite_false] at hok
    by_cases h402 : r.status_code = 402
    · rw [if_pos h402] at hok
      exact absurd hok (by simp)
    · rw [if_neg h402] at hok
      rcases hbody : r.bodyAsError with _ | e
      · rw [hbody] at hok
        simp only [Option.getD_some, Option.getD_none, fallbackError, detailsTruthy,
          and_false, if_false, ite_false, and_true] at hok
        exact absurd hok (by simp)
      · rw [hbody] at hok
        simp only [Option.getD_some] at hok
        rcases hdet : e.details with _ | ⟨_ | ⟨d, ds⟩⟩
        all_goals rw [hdet] at hok
        · simp only [detailsTruthy, and_false, if_false, ite_false] at hok
          exact absurd hok (by simp)
        · simp only [detailsTruthy, and_false, if_false, ite_false] at hok
          exact absurd hok (by simp)
        · by_cases h422 : r.status_code = 422
          · simp only [detailsTruthy, h422, and_true, if_true, ite_true, true_and,
              Option.getD_some] at hok
            refine ⟨h422, e, d :: ds, rfl, hdet, by simp, ?_⟩
            exact (Except.ok.inj hok).symm
          · simp only [detailsTruthy, h422, false_and, if_false, ite_false] at hok
            exact absurd hok (by simp)

/-- Witness for C1 at the spec's concrete fixture: a 422 body with one
INVALID_FORMAT detail is returned as a failure with exactly that entry,
and a 500 response is not a returned value. -/
theorem c1_422_details_returned_witness :
    handle_response
      { status_code := 422,
        bodyAsError := some
          { error := "validation_error",
            details := some [{ path := "$.invoice.seller.vatId",
                               code := "INVALID_FORMAT",
                               message := "Invalid VAT ID format" }] } } =
      .ok (.failure { errors := [{ path := "$.invoice.seller.vatId",
                                   code := "INVALID_FORMAT",
                                   message := "Invalid VAT ID format" }] }) :=
  (c1_422_details_returned _).1 _ _ rfl rfl rfl (by decide)

theorem build_request_missing (b : InvoiceBuilder)
    (h : requiredFields.filter b.fieldMissing ≠ []) :
    b._build_request =
      .inr { errors := (requiredFields.filter b.fieldMissing).map requiredError } := by
  rw [InvoiceBuilder._build_request]
  cases hn : pyTruthy b._number <;> cases hd : pyTruthy b._date <;>
    rcases hs : b._seller with _ | ps <;> rcases hb : b._buyer with _ | pb <;>
    rcases hi : b._items with _ | ⟨it, its⟩ <;>
    simp_all [requiredFields, InvoiceBuilder.fieldMissing, requiredError,
      requiredMessage, List.filter_cons]

/-- C2: whenever any required field is missing by the builder's
criterion, `generate` returns an `InvoiceFailure` with exactly one
REQUIRED error per missing field, in the fixed order number, date,
seller, buyer, items, and issues no network call (second component
`false`), whatever the network would have answered. -/
theorem c2_missing_fields_soft_failure (b : InvoiceBuilder) (net : NetOutcome)
    (h : requiredFields.filter b.fieldMissing ≠ []) :
    b.generate net =
      (.ok (.failure { errors :=
        (requiredFields.filter b.fieldMissing).map requiredError }), false) := by
  rw [InvoiceBuilder.generate, build_request_missing b h]
  rfl

/-- Witness for C2: the empty builder misses all five fields; its
generate returns the five REQUIRED errors in order and makes no call. -/
theorem c2_missing_fields_soft_failure_witness :
    InvoiceBuilder.generate {} NetOutcome.timeout =
      (.ok (.failure { errors :=
        (requiredFields.filter (InvoiceBuilder.fieldMissing {})).map requiredError }),
       false) :=
  c2_missing_fields_soft_failure {} NetOutcome.timeout (by decide)

/-- C10: a builder whose number or date was set to the empty string ""
is treated by validation exactly as if that setter had never been
called: `generate` behaves identically to the builder with that field
unset, returns an `InvoiceFailure` containing the REQUIRED error for
the field, and makes no network call. -/
theorem c10_empty_string_is_missing (b : InvoiceBuilder) (net : NetOutcome) :
    (b._number = some "" →
      b.generate net = InvoiceBuilder.generate { b with _number := none } net ∧
      ∃ f, b.generate net = (.ok (.failure f), false) ∧
        requiredError "number" ∈ f.errors) ∧
    (b._date = some "" →
      b.generate net = InvoiceBuilder.generate { b with _date := none } net ∧
      ∃ f, b.generate net = (.ok (.failure f), false) ∧
        requiredError "date" ∈ f.errors) := by
  constructor
  · intro h
    have hfil : requiredFields.filter b.fieldMissing =
        requiredFields.filter (InvoiceBuilder.fieldMissing { b with _number := none }) := by
      simp [requiredFields, List.filter_cons, InvoiceBuilder.fieldMissing, h, pyTruthy]
    have hne : requiredFields.filter b.fieldMissing ≠ [] := by
      simp [requiredFields, List.filter_cons, InvoiceBuilder.fieldMissing, h, pyTruthy]
    have hne' : requiredFields.filter
        (InvoiceBuilder.fieldMissing { b with _number := none }) ≠ [] := hfil ▸ hne
    refine ⟨?_, ?_⟩
    · rw [InvoiceBuilder.generate, build_request_missing b hne,
          InvoiceBuilder.generate, build_request_missing _ hne', hfil]
    · refine ⟨_, c2_missing_fields_soft_failure b net hne, ?_⟩
      refine List.mem_map_of_mem requiredError (List.mem_filter.mpr ⟨?_, ?_⟩)
      · simp [requiredFields]
      · simp [InvoiceBuilder.fieldMissing, h, pyTruthy]
  · intro h
    have hfil : requiredFields.filter b.fieldMissing =
        requiredFields.filter (InvoiceBuilder.fieldMissing { b with _date := none }) := by
      simp [requiredFields, List.filter_cons, InvoiceBuilder.fieldMissing, h, pyTruthy]
    have hne : requiredFields.filter b.fieldMissing ≠ [] := by
      simp only [requiredFields, List.filter_cons, List.filter_nil,
        InvoiceBuilder.fieldMissing, h, pyTruthy]
      split_ifs <;> simp_all
    have hne' : requiredFields.filter
        (InvoiceBuilder.fieldMissing { b with _date := none }) ≠ [] := hfil ▸ hne
    refine ⟨?_, ?_⟩
    · rw [InvoiceBuilder.generate, build_request_missing b hne,
          InvoiceBuilder.generate, build_request_missing _ hne', hfil]
    · refine ⟨_, c2_missing_fields_soft_failure b net hne, ?_⟩
      refine List.mem_map_of_mem requiredError (List.mem_filter.mpr ⟨?_, ?_⟩)
      · simp [requiredFields]
      · simp [InvoiceBuilder.fieldMissing, h, pyTruthy]

/-- Witness for C10 at the builder with number and date both set to "":
generate agrees with the unset builder and yields the REQUIRED errors. -/
theorem c10_empty_string_is_missing_witness :
    (InvoiceBuilder.generate { _number := some "", _date := some "" } NetOutcome.timeout =
       InvoiceBuilder.generate { _number := none, _date := some "" } NetOutcome.timeout ∧
     ∃ f, InvoiceBuilder.generate { _number := some "", _date := some "" } NetOutcome.timeout =
       (.ok (.failure f), false) ∧ requiredError "number" ∈ f.errors) ∧
    (InvoiceBuilder.generate { _number := some "", _date := some "" } NetOutcome.timeout =
       InvoiceBuilder.generate { _number := some "", _date := none } NetOutcome.timeout ∧
     ∃ f, InvoiceBuilder.generate { _number := some "", _date := some "" } NetOutcome.timeout =
       (.ok (.failure f), false) ∧ requiredError "date" ∈ f.errors) :=
  ⟨(c10_empty_string_is_missing { _number := some "", _date := some "" } NetOutcome.timeout).1 rfl,
   (c10_empty_string_is_missing { _number := some "", _date := some "" } NetOutcome.timeout).2 rfl⟩

/-- C7: for every builder state that passes required-field validation,
the assembled request carries a customization object exactly when one of
logo_base64, footer_text, accent_color is set (non-empty, per the
omit-if-empty rule); when present it is the builder's customization
record with exactly the fields that were set, and with none of the
three set the request carries no customization object at all. -/
theorem c7_customization_omit_if_empty (b : InvoiceBuilder)
    (h : ∀ f ∈ requiredFields, b.fieldMissing f = false) :
    ∃ req, b._build_request = Sum.inl req ∧
      req.customization.isSome = b._customization.hasVisibleContent ∧
      (b._customization.hasVisibleContent = true →
        req.customization = some b._customization) ∧
      (b._customization.hasVisibleContent = false →
        req.customization = none) := by
  have hn : pyTruthy b._number = true := by
    have := h "number" (by simp [requiredFields])
    simpa [InvoiceBuilder.fieldMissing] using this
  have hd : pyTruthy b._date = true := by
    have := h "date" (by simp [requiredFields])
    simpa [InvoiceBuilder.fieldMissing] using this
  have hs : b._seller.isSome = true := by
    have := h "seller" (by simp [requiredFields])
    simp only [InvoiceBuilder.fieldMissing] at this
    simp [Option.isSome_iff_ne_none, Option.isNone_iff_eq_none] at this ⊢
    exact this
  have hb : b._buyer.isSome = true := by
    have := h "buyer" (by simp [requiredFields])
    simp only [InvoiceBuilder.fieldMissing] at this
    simp [Option.isSome_iff_ne_none, Option.isNone_iff_eq_none] at this ⊢
    exact this
  have hi : b._items.isEmpty = false := by
    have := h "items" (by simp [requiredFields])
    simpa [InvoiceBuilder.fieldMissing] using this
  refine ⟨{ template := b._template, locale := b._locale,
            invoice := { number := b._number.getD "", date := b._date.getD "",
                         due_date := b._due_date, seller := b._seller.getD default,
                         buyer := b._buyer.getD default, items := b._items,
                         payment := b._payment, currency := b._currency },
            customization := if pyTruthy b._customization.logo_base64 ||
                pyTruthy b._customization.footer_text ||
                pyTruthy b._customization.accent_color then
              some b._customization else none },
         ?_, ?_, ?_, ?_⟩
  · rw [InvoiceBuilder._build_request]
    simp [hn, hd, hs, hb, hi]
  · rw [Customization.hasVisibleContent]
    cases hc : pyTruthy b._customization.logo_base64 ||
        pyTruthy b._customization.footer_text ||
        pyTruthy b._customization.accent_color <;>
      simp [hc]
  · intro hc
    rw [Customization.hasVisibleContent] at hc
    simp [hc]
  · intro hc
    rw [Customization.hasVisibleContent] at hc
    simp only [hc, Bool.or_eq_false_iff] at hc ⊢
    simp [hc]

/-- Witness for C7 at a complete builder carrying only a footer text:
validation passes and the assembled request carries the customization. -/
theorem c7_customization_omit_if_empty_witness :
    (∀ f ∈ requiredFields, InvoiceBuilder.fieldMissing
      { _number := some "001", _date := some "2026-01-15",
        _seller := some { name := "Acme" }, _buyer := some { name := "Customer" },
        _items := [{ description := "Consulting", quantity := 1, unit_price := 100 }],
        _customization := { footer_text := some "Thanks" } } f = false) ∧
    (∃ req, InvoiceBuilder._build_request
      { _number := some "001", _date := some "2026-01-15",
        _seller := some { name := "Acme" }, _buyer := some { name := "Customer" },
        _items := [{ description := "Consulting", quantity := 1, unit_price := 100 }],
        _customization := { footer_text := some "Thanks" } } = Sum.inl req ∧
      req.customization.isSome =
        Customization.hasVisibleContent { footer_text := some "Thanks" } ∧
      (Customization.hasVisibleContent { footer_text := some "Thanks" } = true →
        req.customization = some { footer_text := some "Thanks" }) ∧
      (Customization.hasVisibleContent { footer_text := some "Thanks" } = false →
        req.customization = none)) :=
  ⟨by decide, c7_customization_omit_if_empty _ (by decide)⟩

/-- C9: classification yields a success result only when the HTTP
status is exactly 200 (and a 200 response whose body parses as a
`GenerateResponse` does yield that success); every 2xx status other
than 200 goes down the error path and, since it can match neither 402
nor 422, throws a generic API error carrying that status code. -/
theorem c9_success_only_200 (r : HttpResponse) :
    (∀ s, handle_response r = .ok (.success s) → r.status_code = 200) ∧
    (r.status_code = 200 → ∀ d, r.bodyAsGenerate = some d →
      handle_response r = .ok (.success
        { pdf_base64 := d.pdf_base64, filename := d.filename,
          validation := d.validation, account := d.account })) ∧
    (200 < r.status_code → r.status_code < 300 →
      ∃ m c, handle_response r = .error (.envoice (.apiError m r.status_code c))) := by
  refine ⟨?_, ?_, ?_⟩
  · intro s hok
    by_contra h200
    simp only [handle_response, h200, if_false, ite_false] at hok
    split at hok
    · simp_all
    · split at hok <;> simp_all
  · intro h200 d hd
    simp [handle_response, h200, hd]
  · intro hgt hlt
    have h200 : r.status_code ≠ 200 := by omega
    have h402 : r.status_code ≠ 402 := by omega
    have h422 : r.status_code ≠ 422 := by omega
    refine ⟨strOr (r.bodyAsError.getD (fallbackError r.status_code)).message
        (strOr (some (r.bodyAsError.getD (fallbackError r.status_code)).error)
          "Unknown error"),
      some (r.bodyAsError.getD (fallbackError r.status_code)).error, ?_⟩
    simp [handle_response, h200, h402, h422]

/-- Witness for C9: a 201 response is classified down the error path as
a generic API error with status 201, not as a success value. -/
theorem c9_success_only_200_witness :
    handle_response
      { status_code := 200
        bodyAsGenerate := some
          { pdf_base64 := "AQID"
            filename := "invoice.pdf"
            validation := { status := "valid", profile := "EN16931", version := "2.3.2" } } } =
      .ok (.success
        { pdf_base64 := "AQID"
          filename := "invoice.pdf"
          validation := { status := "valid", profile := "EN16931", version := "2.3.2" } }) ∧
    ∃ m c, handle_response { status_code := 201 } =
      .error (.envoice (.apiError m 201 c)) :=
  ⟨(c9_success_only_200 _).2.1 rfl _ rfl,
   (c9_success_only_200 { status_code := 201 }).2.2 (by decide) (by decide)⟩

/-- Counterexample to C3 as stated: a 402 response whose body parses
with the (empty-string) message "" does NOT carry that server-provided
message verbatim — the thrown quota error carries "Quota exceeded"
instead, because the code replaces any falsy message. -/
theorem c3_counterexample :
    handle_response
        { status_code := 402,
          bodyAsError := some { error := "quota_exceeded", message := some "" } } =
      .error (.envoice (.quotaExceeded "Quota exceeded")) ∧
    handle_response
        { status_code := 402,
          bodyAsError := some { error := "quota_exceeded", message := some "" } } ≠
      .error (.envoice (.quotaExceeded "")) := by
  constructor
  · decide
  · decide

/-- C3 (amended): a 402 response always throws the quota-exceeded
error, a distinguished subtype of the generic API error (it is an API
error with status 402 and code "quota_exceeded"), carrying the
server-provided message verbatim when the body supplies a NON-EMPTY
one. -/
theorem c3_402_always_quota (r : HttpResponse) (h : r.status_code = 402) :
    ∃ m, handle_response r = .error (.envoice (.quotaExceeded m)) ∧
      EnvoiceError.isApiError (.quotaExceeded m) = true ∧
      EnvoiceError.statusCode (.quotaExceeded m) = some 402 ∧
      EnvoiceError.errCode (.quotaExceeded m) = some "quota_exceeded" ∧
      ∀ e s, r.bodyAsError = some e → e.message = some s → s ≠ "" → m = s := by
  refine ⟨strOr (r.bodyAsError.getD (fallbackError r.status_code)).message
      "Quota exceeded", ?_, rfl, rfl, rfl, ?_⟩
  · simp [handle_response, h]
  · intro e s he hs hne
    rw [he, Option.getD_some, hs, strOr]
    simp [hne]

/-- Witness for C3 (amended) at a 402 body carrying the message
"Monthly quota exceeded". -/
theorem c3_402_always_quota_witness :
    ∃ m, handle_response
        { status_code := 402,
          bodyAsError := some
            { error := "quota_exceeded", message := some "Monthly quota exceeded" } } =
      .error (.envoice (.quotaExceeded m)) ∧
      EnvoiceError.isApiError (.quotaExceeded m) = true ∧
      EnvoiceError.statusCode (.quotaExceeded m) = some 402 ∧
      EnvoiceError.errCode (.quotaExceeded m) = some "quota_exceeded" ∧
      ∀ e s, ({ status_code := 402,
                bodyAsError := some
                  { error := "quota_exceeded",
                    message := some "Monthly quota exceeded" } } :
            HttpResponse).bodyAsError = some e → e.message = some s → s ≠ "" → m = s :=
  c3_402_always_quota _ rfl

/-- Counterexample to C4 as stated: a 500 response whose body parses
with message "" is NOT thrown with the body's message — the generic API
error carries the body's error field "boom" as its message instead,
because the code replaces any falsy message. -/
theorem c4_counterexample :
    handle_response
        { status_code := 500,
          bodyAsError := some { error := "boom", message := some "" } } =
      .error (.envoice (.apiError "boom" 500 (some "boom"))) ∧
    handle_response
        { status_code := 500,
          bodyAsError := some { error := "boom", message := some "" } } ≠
      .error (.envoice (.apiError "" 500 (some "boom"))) := by
  constructor
  · decide
  · decide

/-- C4 (amended): every non-2xx status other than 402 and other than
422-with-non-empty-details throws a generic API error carrying that
HTTP status code, the code taken from the body's error field, and the
body's message when the body supplies a NON-EMPTY one (otherwise the
error field, or "Unknown error", stands in as the message); in
particular a 422 response without a non-empty details list throws this
generic API error. -/
theorem c4_other_status_throws_api_error (r : HttpResponse) (e : ErrorResponse)
    (h2xx : ¬ (200 ≤ r.status_code ∧ r.status_code < 300))
    (h402 : r.status_code ≠ 402)
    (hbody : r.bodyAsError = some e)
    (hdet : ¬ (r.status_code = 422 ∧ detailsTruthy e.details = true)) :
    ∃ m, handle_response r =
        .error (.envoice (.apiError m r.status_code (some e.error))) ∧
      ∀ s, e.message = some s → s ≠ "" → m = s := by
  have h200 : r.status_code ≠ 200 := fun h => h2xx ⟨by omega, by omega⟩
  refine ⟨strOr e.message (strOr (some e.error) "Unknown error"), ?_, ?_⟩
  · simp only [handle_response, h200, if_false, ite_false, hbody, Option.getD_some]
    rw [if_neg h402, if_neg]
    intro hc
    exact hdet ⟨hc.1, by simpa using hc.2⟩
  · intro s hs hne
    rw [hs, strOr]
    simp [hne]

/-- Witness for C4 (amended) at the 422-without-details body
`{error: "validation_error", message: "Invalid"}`: it throws the
generic API error with status 422, code "validation_error", message
"Invalid". -/
theorem c4_other_status_throws_api_error_witness :
    ∃ m, handle_response
        { status_code := 422,
          bodyAsError := some { error := "validation_error", message := some "Invalid" } } =
      .error (.envoice (.apiError m 422 (some "validation_error"))) ∧
      ∀ s, ({ error := "validation_error", message := some "Invalid" } :
          ErrorResponse).message = some s → s ≠ "" → m = s :=
  c4_other_status_throws_api_error
    { status_code := 422,
      bodyAsError := some { error := "validation_error", message := some "Invalid" } }
    { error := "validation_error", message := some "Invalid" }
    (by decide) (by decide) rfl (by decide)

/-- Counterexample to C5 as stated ("for every operation"): for the
`validate` operation, a 500 response whose body fails to parse as the
error shape is NOT absorbed — the raw parse exception propagates to the
caller instead of any classified SDK error. -/
theorem c5_counterexample :
    validate (.response { status_code := 500 }) = .error .pydantic ∧
    ∀ er : EnvoiceError,
      validate (.response { status_code := 500 }) ≠ .error (.envoice er) := by
  constructor
  · rfl
  · intro er h
    rw [show validate (.response { status_code := 500 }) = .error .pydantic from rfl] at h
    simp at h

/-- C5 (amended, restricted to generate): on the generate path, every
error-path response whose body fails to parse as the error shape is
absorbed locally — classification proceeds exactly as if the body had
parsed to the synthesized `{error: "unknown_error", message:
"HTTP <status>"}` — and no parse exception propagates to the caller. -/
theorem c5_generate_parse_fallback (r : HttpResponse)
    (h200 : r.status_code ≠ 200) (hp : r.bodyAsError = none) :
    handle_response r =
      handle_response { r with bodyAsError := some (fallbackError r.status_code) } ∧
    handle_response r ≠ .error .pydantic := by
  constructor
  · simp [handle_response, h200, hp]
  · simp only [handle_response, h200, hp, if_false, ite_false, Option.getD_none]
    split_ifs <;> simp

/-- Witness for C5 (amended) at a 503 response with an unparseable
body. -/
theorem c5_generate_parse_fallback_witness :
    handle_response { status_code := 503 } =
      handle_response
        { status_code := 503,
          bodyAsError := some (fallbackError 503) } ∧
    handle_response { status_code := 503 } ≠ .error .pydantic :=
  c5_generate_parse_fallback { status_code := 503 } (by decide) rfl

end Envoice
